import Mathlib

/-!
Verification of the Eventim seat-availability monitor (`src/main.py`).

The Python program is shallowly embedded below:
* the classifier inside `fetch_seat_data` (lines 108-139) becomes pure
  functions on optional attribute strings;
* the per-selector probing loop (lines 102-147) becomes `selectorLoop`
  over a list of selector outcomes;
* `load_previous_data` / `save_current_data` become functions over an
  explicit `FileState`, with JSON objects modelled as association lists;
* `compare_and_notify` becomes a function returning `Except` (a Python
  `KeyError` / `TypeError` is an `Except.error`) and a list of messages;
* the `main` scheduler loop becomes `mainLoop`, consuming one
  `CycleInput` per iteration, with the `try/except` of the source placed
  outside the `while` loop exactly as in the code (lines 262-295).

Category names follow the source: `yellow` = available_standard,
`red` = available_premium, `grey` = sold.
-/

set_option autoImplicit false

namespace SeatMonitor

/-- Membership test used by Python `pat in s` on strings: `listStartsWith s p` is true when `p`
is an initial segment of `s`. -/
def listStartsWith : List Char → List Char → Bool
  | _, [] => true
  | [], _ :: _ => false
  | a :: as, b :: bs => a == b && listStartsWith as bs

/-- Substring containment on character lists (contiguous occurrence). -/
def containsSubList (pat : List Char) : List Char → Bool
  | [] => pat.isEmpty
  | c :: rest => listStartsWith (c :: rest) pat || containsSubList pat rest

/-- Python string containment, `pat in s`. -/
def strContains (s pat : String) : Bool :=
  containsSubList pat.data s.data

/-- Python `s.lower()` (character-wise lowercasing). -/
def strLower (s : String) : String :=
  ⟨s.data.map Char.toLower⟩

/-- Seat counts by colour, the dict `seat_counts` of `fetch_seat_data`
(line 87): `{"yellow": 0, "red": 0, "grey": 0}`. -/
structure SeatCounts where
  yellow : Nat
  red : Nat
  grey : Nat
deriving DecidableEq

/-- The initial `seat_counts` dict: all three categories zero. -/
def zeroCounts : SeatCounts := ⟨0, 0, 0⟩

/-- Pointwise addition of seat-count dictionaries; a `+= 1` on one key is
addition of a unit vector. -/
def addCounts (a b : SeatCounts) : SeatCounts :=
  ⟨a.yellow + b.yellow, a.red + b.red, a.grey + b.grey⟩

/-- Total of the three category counters. -/
def sumCounts (c : SeatCounts) : Nat :=
  c.yellow + c.red + c.grey

/-- Colour branch of the classifier, lines 114-127 of `main.py`, for a
non-empty fill colour: lowercase the string and test substrings in the
order of the source; the final `else` assumes sold. -/
def colorCategory (fc : String) : SeatCounts :=
  let f := strLower fc
  if strContains f "yellow" || strContains f "gold" then ⟨1, 0, 0⟩
  else if strContains f "red" || strContains f "crimson" then ⟨0, 1, 0⟩
  else if strContains f "grey" || strContains f "gray" || strContains f "silver" then ⟨0, 0, 1⟩
  else if strContains f "green" || strContains f "blue" then ⟨1, 0, 0⟩
  else ⟨0, 0, 1⟩

/-- Python truthiness of the `fill` attribute (line 114, `if fill_color:`):
`None` and the empty string are falsy. -/
def fillBlank : Option String → Bool
  | none => true
  | some s => s.isEmpty

/-- Contribution of the colour branch: nothing when the attribute is
absent or empty, otherwise `colorCategory`. -/
def fillDelta (fill : Option String) : SeatCounts :=
  match fill with
  | none => zeroCounts
  | some fc => if fc.isEmpty then zeroCounts else colorCategory fc

/-- Class-name branch of the classifier, lines 130-137 of `main.py`
(`class_name` is already defaulted to `""` at line 111 when the
attribute is absent). -/
def classDelta (cn : String) : SeatCounts :=
  let c := strLower cn
  if strContains c "available" || strContains c "free" then
    if strContains c "premium" || strContains c "vip" then ⟨0, 1, 0⟩ else ⟨1, 0, 0⟩
  else if strContains c "sold" || strContains c "taken" || strContains c "occupied" then ⟨0, 0, 1⟩
  else zeroCounts

/-- True when the class name fires one of the class rules of
lines 131-136 (`available`/`free` or `sold`/`taken`/`occupied`). -/
def classMatched (cn : String) : Bool :=
  let c := strLower cn
  (strContains c "available" || strContains c "free") ||
    (strContains c "sold" || strContains c "taken" || strContains c "occupied")

/-- One seat marker as read from the page: optional `fill` attribute and
optional `class` attribute (lines 110-111). -/
structure SeatElem where
  fill : Option String
  className : Option String

/-- Net contribution of one element to `seat_counts` (lines 113-137):
the colour branch and the class branch both run, each incrementing its
own counter. -/
def classifySeat (fill : Option String) (className : Option String) : SeatCounts :=
  addCounts (fillDelta fill) (classDelta (className.getD ""))

/-! ### Fetcher: the per-selector probing loop (lines 100-147) -/

/-- One `page.query_selector_all` call: either the selector raises (caught
by the inner `except` at line 145, which logs at debug level and
continues) or it returns a list of elements. -/
def SelectorResult : Type := Except Unit (List SeatElem)

/-- The selector loop of lines 102-147: carries the accumulating
`seat_counts` and `total_seats_found`; a selector that raises is skipped;
an empty result set (falsy `seats`) is skipped; a non-empty result set is
classified element by element, `total_seats_found` incremented once per
element, and the loop breaks when `total_seats_found > 0`. -/
def selectorLoop (counts : SeatCounts) (total : Nat) :
    List SelectorResult → SeatCounts × Nat
  | [] => (counts, total)
  | res :: rest =>
    match res with
    | .error _ => selectorLoop counts total rest
    | .ok seats =>
      if seats.isEmpty then selectorLoop counts total rest
      else
        let counts2 := seats.foldl (fun a s => addCounts a (classifySeat s.fill s.className)) counts
        let total2 := total + seats.length
        if total2 > 0 then (counts2, total2) else selectorLoop counts2 total2 rest

/-- Environment of one `fetch_seat_data` call. `envFails` is true when
an exception reaches the top-level `try` of line 50 (browser launch,
navigation, or anything else outside the inner per-selector `try`);
`selectorResults` gives the outcome of each seat selector in priority
order. The chart-presence probing of lines 65-84 only logs, and so is
not modelled. -/
structure FetchWorld where
  envFails : Bool
  selectorResults : List SelectorResult

/-- Body of `fetch_seat_data` under the top-level `try` (lines 50-161). -/
def fetchBody (w : FetchWorld) : Except Unit SeatCounts :=
  if w.envFails then .error ()
  else .ok (selectorLoop zeroCounts 0 w.selectorResults).1

/-- The function `fetch_seat_data` (lines 43-165): any exception reaching
the top-level handler is logged and converted to the zero-count dict. -/
def fetch_seat_data (w : FetchWorld) : SeatCounts :=
  match fetchBody w with
  | .ok c => c
  | .error _ => zeroCounts

/-! ### JSON model and the snapshot store (lines 168-209) -/

/-- A JSON scalar as it appears in the snapshot file: an integer count or
a string (the timestamp fields). -/
inductive JVal where
  | num (n : Int)
  | str (s : String)
deriving DecidableEq

/-- A JSON object / Python dict: ordered key-value pairs, first
occurrence of a key wins on lookup. -/
abbrev JObj : Type := List (String × JVal)

/-- Dict lookup, `o[k]`: `none` models a raised `KeyError`. -/
def pyGet : JObj → String → Option JVal
  | [], _ => none
  | (k, v) :: rest, key => if k = key then some v else pyGet rest key

/-- Dict update, `o[k] = v` (used for `{**data, "timestamp": ...}`):
replace the first binding of `k`, or append it. -/
def setKey : JObj → String → JVal → JObj
  | [], k, v => [(k, v)]
  | (k0, v0) :: rest, k, v =>
    if k0 = k then (k, v) :: rest else (k0, v0) :: setKey rest k v

/-- The state of the snapshot file `seat_data.json` as `load`/`save` see
it: absent, present but unreadable or unparseable, or parsed JSON. -/
inductive FileState where
  | absent
  | unreadable
  | readable (j : JObj)
deriving DecidableEq

/-- The default dict `{"yellow": 0, "red": 0, "grey": 0}` returned by
`load_previous_data` at lines 183 and 186. -/
def defaultData : JObj :=
  [("yellow", .num 0), ("red", .num 0), ("grey", .num 0)]

/-- The function `load_previous_data` (lines 168-186): return the parsed
file content verbatim; on a missing file or any exception, return the
defaults. -/
def load_previous_data : FileState → JObj
  | .absent => defaultData
  | .unreadable => defaultData
  | .readable j => j

/-- Conversion of the `seat_counts` dict to the JSON object written to
disk (the dict is already in this shape in Python; the embedding keeps
counts and JSON apart). -/
def countsToObj (c : SeatCounts) : JObj :=
  [("yellow", .num c.yellow), ("red", .num c.red), ("grey", .num c.grey)]

/-- The function `save_current_data` (lines 189-209): write
`{**data, "timestamp": ts, "last_check": lc}`, overwriting the file;
when the write raises (`writeOk = false`) the error is logged and the
old file state is kept. -/
def save_current_data (data : JObj) (ts lc : String) (writeOk : Bool)
    (old : FileState) : FileState :=
  if writeOk then
    .readable (setKey (setKey data "timestamp" (.str ts)) "last_check" (.str lc))
  else old

/-! ### Reporter: `compare_and_notify` (lines 212-234) -/

/-- One printed notification line. `moreAvailable c d` is the
`"More (category) seats available (+d)"` print of line 229, emitted when
`diff > 0`; `ticketsSold c d` is the
`"New tickets sold in category (category) (d)"` print of line 231,
emitted when `diff < 0`; `noChanges` is the line-234 print. -/
inductive Msg where
  | moreAvailable (category : String) (diff : Int)
  | ticketsSold (category : String) (diff : Int)
  | noChanges
deriving DecidableEq

/-- Display label of line 226: `"Yellow"`, `"Red"`, `"Sold (grey)"`. -/
def colorLabel (c : String) : String :=
  if c = "yellow" then "Yellow" else if c = "red" then "Red" else "Sold (grey)"

/-- Python `-` on two JSON scalars: defined only on two numbers;
`none` models a raised `TypeError`. -/
def jsub : JVal → JVal → Option Int
  | .num a, .num b => some (a - b)
  | _, _ => none

/-- The `for color in ["yellow", "red", "grey"]` loop of lines 222-231:
look both counts up (a missing key raises `KeyError`), subtract, and emit
the direction-specific message when the diff is non-zero. -/
def compareColors : List String → JObj → JObj → Except String (List Msg)
  | [], _, _ => .ok []
  | c :: rest, cur, prev =>
    match pyGet cur c with
    | none => .error "KeyError"
    | some cv =>
      match pyGet prev c with
      | none => .error "KeyError"
      | some pv =>
        match jsub cv pv with
        | none => .error "TypeError"
        | some d =>
          let here : List Msg :=
            if d = 0 then []
            else if d > 0 then [.moreAvailable (colorLabel c) d]
            else [.ticketsSold (colorLabel c) d]
          (compareColors rest cur prev).map (fun msgs => here ++ msgs)

/-- The function `compare_and_notify` (lines 212-234): the per-colour
messages, or the single no-changes message when no diff was non-zero
(`changes_detected` stayed false exactly when no message was printed). -/
def compare_and_notify (current previous : JObj) : Except String (List Msg) :=
  (compareColors ["yellow", "red", "grey"] current previous).map
    (fun msgs => if msgs.isEmpty then [.noChanges] else msgs)

/-! ### Scheduler loop: `main` (lines 254-295) -/

/-- Inputs of one iteration of the `while True` loop: the fetch
environment, the timestamps `datetime.now()` produces during the save,
whether the file write succeeds, and whether the operator interrupts
during the `time.sleep` at the end of the cycle. -/
structure CycleInput where
  fetchW : FetchWorld
  ts : String
  lc : String
  writeOk : Bool
  interruptDuringWait : Bool

/-- One cycle body (lines 264-287): fetch, load the previous file,
compare and notify (`print_seat_summary` only prints the always-present
keys of the fresh fetch result and is omitted), then save. An
`Except.error` is an exception escaping the cycle body — for example the
`KeyError` raised at line 223 when the loaded file lacks a colour key. -/
def runCycle (inp : CycleInput) (fs : FileState) :
    Except String (FileState × List Msg) :=
  let current := fetch_seat_data inp.fetchW
  let previous := load_previous_data fs
  match compare_and_notify (countsToObj current) previous with
  | .error e => .error e
  | .ok msgs =>
    .ok (save_current_data (countsToObj current) inp.ts inp.lc inp.writeOk fs, msgs)

/-- How a run of `main` ends (within the supplied fuel). `crashed` is the
`except Exception` handler of lines 292-295: it logs, prints
`"The script will continue monitoring..."`, and then `main` returns —
the `try` wraps the whole `while` loop, so the loop is not re-entered. -/
inductive LoopStatus where
  | running (fs : FileState)
  | interrupted (fs : FileState)
  | crashed (e : String) (fs : FileState)
deriving DecidableEq

/-- The `try: while True: ...` of lines 262-295, run for one cycle per
supplied `CycleInput` (`running` means the inputs were exhausted with the
loop still going). An exception in a cycle body exits the loop to the
outer handler; a `KeyboardInterrupt` during the wait exits gracefully. -/
def mainLoop (fs : FileState) : List CycleInput → LoopStatus
  | [] => .running fs
  | inp :: rest =>
    match runCycle inp fs with
    | .error e => .crashed e fs
    | .ok (fs2, _) =>
      if inp.interruptDuringWait then .interrupted fs2
      else mainLoop fs2 rest

/-! ### Measuring definitions for the reporter output -/

/-- The message list the line 222-231 loop emits for one colour with
diff `d`: nothing on zero, the availability message on a positive diff,
the sale message on a negative diff. -/
def deltaMsg (l : String) (d : Int) : List Msg :=
  if d = 0 then []
  else if d > 0 then [.moreAvailable l d]
  else [.ticketsSold l d]

/-- Whether a message concerns the category labelled `l`. -/
def isMsgFor (l : String) : Msg → Bool
  | .moreAvailable l2 _ => l2 == l
  | .ticketsSold l2 _ => l2 == l
  | .noChanges => false

/-- Number of messages in a report about the category labelled `l`. -/
def countMsgsFor (msgs : List Msg) (l : String) : Nat :=
  (msgs.filter (isMsgFor l)).length

/-- Whether a message is the tickets-sold message for the category
labelled `l`. -/
def isTicketsSoldFor (l : String) : Msg → Bool
  | .ticketsSold l2 _ => l2 == l
  | _ => false

end SeatMonitor

namespace SeatMonitor

/-! ### Helper lemmas -/

lemma sumCounts_addCounts (a b : SeatCounts) :
    sumCounts (addCounts a b) = sumCounts a + sumCounts b := by
  simp [sumCounts, addCounts]; omega

/-- Every non-empty fill colour lands in exactly one category: the
colour branch always increments exactly one counter. -/
lemma sumCounts_colorCategory (f : String) : sumCounts (colorCategory f) = 1 := by
  simp only [colorCategory]
  split_ifs <;> rfl

/-- A class name matching a class rule increments exactly one counter. -/
lemma sumCounts_classDelta_matched (cn : String) (h : classMatched cn = true) :
    sumCounts (classDelta cn) = 1 := by
  simp only [classMatched] at h
  simp only [classDelta]
  split_ifs with h1 h2 h3 <;> first | rfl | simp_all

/-- A class name matching no class rule increments nothing. -/
lemma classDelta_unmatched (cn : String) (h : classMatched cn = false) :
    classDelta cn = zeroCounts := by
  simp only [classMatched] at h
  simp only [classDelta]
  split_ifs with h1 h2 <;> simp_all

/-- Evaluation of the colour-comparison loop on two objects carrying the
three colour keys as numbers: one `deltaMsg` block per colour, in loop
order. -/
lemma compareColors_eval (cur prev : JObj) (cy cr cg py pr pg : Int)
    (h1 : pyGet cur "yellow" = some (.num cy)) (h2 : pyGet prev "yellow" = some (.num py))
    (h3 : pyGet cur "red" = some (.num cr)) (h4 : pyGet prev "red" = some (.num pr))
    (h5 : pyGet cur "grey" = some (.num cg)) (h6 : pyGet prev "grey" = some (.num pg)) :
    compareColors ["yellow", "red", "grey"] cur prev =
      .ok (deltaMsg "Yellow" (cy - py) ++ deltaMsg "Red" (cr - pr) ++
        deltaMsg "Sold (grey)" (cg - pg)) := by
  simp [compareColors, h1, h2, h3, h4, h5, h6, jsub, colorLabel, deltaMsg, Except.map]

lemma deltaMsg_eq_nil_iff (l : String) (d : Int) : deltaMsg l d = [] ↔ d = 0 := by
  unfold deltaMsg
  split_ifs <;> simp_all

lemma noChanges_not_mem_deltaMsg (l : String) (d : Int) : Msg.noChanges ∉ deltaMsg l d := by
  unfold deltaMsg
  split_ifs <;> simp

lemma countMsgsFor_append (a b : List Msg) (l : String) :
    countMsgsFor (a ++ b) l = countMsgsFor a l + countMsgsFor b l := by
  simp [countMsgsFor, List.filter_append]

lemma countMsgsFor_deltaMsg_same (l : String) (d : Int) :
    countMsgsFor (deltaMsg l d) l = if d = 0 then 0 else 1 := by
  unfold deltaMsg countMsgsFor
  split_ifs <;> simp [isMsgFor]

lemma countMsgsFor_deltaMsg_other (l2 l : String) (d : Int) (h : l2 ≠ l) :
    countMsgsFor (deltaMsg l2 d) l = 0 := by
  unfold deltaMsg countMsgsFor
  split_ifs <;> simp [isMsgFor, h]

lemma filter_ticketsSold_deltaMsg_other (l2 l : String) (d : Int) (h : l2 ≠ l) :
    (deltaMsg l2 d).filter (isTicketsSoldFor l) = [] := by
  unfold deltaMsg
  split_ifs <;> simp [isTicketsSoldFor, h]

lemma diff_zero_iff (a b : Nat) :
    (if ((a : Int) - b) = 0 then (0 : Nat) else 1) = if a = b then 0 else 1 := by
  by_cases h : a = b
  · simp [h]
  · have hne : ((a : Int) - b) ≠ 0 := by omega
    simp [h, hne]

/-! ### Claim C1 -/

/-- C1, counterexample: an element with fill colour `gold` and class
name `sold` is counted once as `yellow` (by the colour rule) and once as
`grey` (by the class rule) — two categories, total contribution 2, so the
class rule does not override the colour rule and the element does not
contribute exactly 1 to exactly one category. -/
theorem gold_sold_element_counted_twice :
    classifySeat (some "gold") (some "sold") = ⟨1, 0, 1⟩ ∧
    sumCounts (classifySeat (some "gold") (some "sold")) ≠ 1 :=
  ⟨rfl, by decide⟩

/-- C1, amended: for every element whose fill colour is non-empty (and
hence matches a colour rule) and whose class name matches a class rule,
the classifier contributes 1 to the colour-derived category and,
independently, 1 to the class-derived category — 2 contributions in
total, not exactly 1 with the class category overriding. -/
theorem dual_match_contributes_two_counts (f cn : String)
    (hf : f.isEmpty = false) (hc : classMatched cn = true) :
    sumCounts (classifySeat (some f) (some cn)) = 2 ∧
    sumCounts (colorCategory f) = 1 ∧
    sumCounts (classDelta cn) = 1 ∧
    classifySeat (some f) (some cn) = addCounts (colorCategory f) (classDelta cn) := by
  have h1 : sumCounts (colorCategory f) = 1 := sumCounts_colorCategory f
  have h2 : sumCounts (classDelta cn) = 1 := sumCounts_classDelta_matched cn hc
  have h3 : classifySeat (some f) (some cn) = addCounts (colorCategory f) (classDelta cn) := by
    simp [classifySeat, fillDelta, hf]
  refine ⟨?_, h1, h2, h3⟩
  rw [h3, sumCounts_addCounts, h1, h2]

/-- C1, witness: the amended theorem applied to fill `gold`, class
`sold`. -/
theorem dual_match_contributes_two_counts_witness :
    ("gold" : String).isEmpty = false ∧ classMatched "sold" = true ∧
    sumCounts (classifySeat (some "gold") (some "sold")) = 2 :=
  ⟨rfl, by decide, (dual_match_contributes_two_counts "gold" "sold" rfl (by decide)).1⟩

/-! ### Claim C2 -/

/-- C2: the `try/except` of `main` wraps the whole `while` loop, so an
exception inside one cycle exits the loop and `main` returns: with a
snapshot file holding the JSON object `{}` (no colour keys), the first
cycle raises `KeyError` at `previous[color]` and the queued second cycle
never runs — the loop does not proceed to the next cycle, the process
terminates. -/
theorem cycle_exception_exits_loop :
    mainLoop (.readable [])
      [⟨⟨true, []⟩, "2024-01-01T00:00:00", "2024-01-01 00:00:00", true, false⟩,
       ⟨⟨true, []⟩, "2024-01-01T03:00:00", "2024-01-01 03:00:00", true, false⟩] =
      .crashed "KeyError" (.readable []) := rfl

/-! ### Claim C3 -/

/-- C3, counterexample: on the scenario of §8 of the spec (previous
counts 5/2/10, current counts 3/2/12), the +2 delta on `grey` (sold) is
reported with the `More ... seats available (+2)` message, not as a
tickets-sold event. -/
theorem sold_increase_reported_as_more_available :
    compare_and_notify (countsToObj ⟨3, 2, 12⟩) (countsToObj ⟨5, 2, 10⟩) =
      .ok [Msg.ticketsSold "Yellow" (-2), Msg.moreAvailable "Sold (grey)" 2] := rfl

/-- C3, amended: whenever the current sold count exceeds the previous
one, `compare_and_notify` reports the positive sold delta with the
`more available` message for category `Sold (grey)` — the grey category
is not special-cased — and emits no tickets-sold message for it. -/
theorem sold_increase_more_available_message (cy cr cg py pr pg : Nat) (h : pg < cg) :
    ∃ msgs, compare_and_notify (countsToObj ⟨cy, cr, cg⟩) (countsToObj ⟨py, pr, pg⟩) = .ok msgs ∧
      Msg.moreAvailable "Sold (grey)" ((cg : Int) - pg) ∈ msgs ∧
      (msgs.filter (isTicketsSoldFor "Sold (grey)")).length = 0 := by
  have hcc := compareColors_eval (countsToObj ⟨cy, cr, cg⟩) (countsToObj ⟨py, pr, pg⟩)
    cy cr cg py pr pg rfl rfl rfl rfl rfl rfl
  have hne : ((cg : Int) - pg) ≠ 0 := by omega
  have hpos : ((cg : Int) - pg) > 0 := by omega
  have hd3 : deltaMsg "Sold (grey)" ((cg : Int) - pg) =
      [Msg.moreAvailable "Sold (grey)" ((cg : Int) - pg)] := by
    simp [deltaMsg, hne, hpos]
  have hLne : deltaMsg "Yellow" ((cy : Int) - py) ++ deltaMsg "Red" ((cr : Int) - pr) ++
      deltaMsg "Sold (grey)" ((cg : Int) - pg) ≠ [] := by
    rw [hd3]
    simp
  have hLE : (deltaMsg "Yellow" ((cy : Int) - py) ++ deltaMsg "Red" ((cr : Int) - pr) ++
      deltaMsg "Sold (grey)" ((cg : Int) - pg)).isEmpty = false := by
    simp only [List.isEmpty_eq_false]
    exact hLne
  refine ⟨deltaMsg "Yellow" ((cy : Int) - py) ++ deltaMsg "Red" ((cr : Int) - pr) ++
      deltaMsg "Sold (grey)" ((cg : Int) - pg), ?_, ?_, ?_⟩
  · unfold compare_and_notify
    rw [hcc]
    simp only [Except.map]
    rw [hLE]
    rfl
  · rw [hd3]
    simp
  · rw [List.filter_append, List.filter_append,
      filter_ticketsSold_deltaMsg_other "Yellow" "Sold (grey)" _ (by decide),
      filter_ticketsSold_deltaMsg_other "Red" "Sold (grey)" _ (by decide), hd3]
    simp [isTicketsSoldFor]

/-- C3, witness: the amended theorem applied to the §8 scenario. -/
theorem sold_increase_more_available_message_witness :
    (10 : Nat) < 12 ∧
    (∃ msgs, compare_and_notify (countsToObj ⟨3, 2, 12⟩) (countsToObj ⟨5, 2, 10⟩) = .ok msgs ∧
      Msg.moreAvailable "Sold (grey)" (((12 : Nat) : Int) - ((10 : Nat) : Int)) ∈ msgs ∧
      (msgs.filter (isTicketsSoldFor "Sold (grey)")).length = 0) :=
  ⟨by decide, sold_increase_more_available_message 3 2 12 5 2 10 (by decide)⟩

/-! ### Claim C4 -/

/-- C4, counterexample: the fill colour `#00ff00` contains none of the
colour-name substrings (in particular not `green`), so it falls to the
assume-sold branch and is classified `grey` (sold), not
`yellow` (available_standard) as the spec states. -/
theorem hex_green_classified_as_sold :
    classifySeat (some "#00ff00") none = ⟨0, 0, 1⟩ ∧
    classifySeat (some "#00ff00") none ≠ ⟨1, 0, 0⟩ :=
  ⟨rfl, by decide⟩

/-- C4, amended: the classifier maps fill `Gold` to `yellow`
(available_standard), `crimson` to `red` (available_premium), `SILVER`
to `grey` (sold), `#00ff00` to `grey` (sold — no colour-name substring
matches, so the catch-all assumes sold), `purple` to `grey` (sold);
class name `seat available vip` to `red` (available_premium) and
`seat sold taken` to `grey` (sold). -/
theorem classifier_listed_inputs :
    classifySeat (some "Gold") none = ⟨1, 0, 0⟩ ∧
    classifySeat (some "crimson") none = ⟨0, 1, 0⟩ ∧
    classifySeat (some "SILVER") none = ⟨0, 0, 1⟩ ∧
    classifySeat (some "#00ff00") none = ⟨0, 0, 1⟩ ∧
    classifySeat (some "purple") none = ⟨0, 0, 1⟩ ∧
    classifySeat none (some "seat available vip") = ⟨0, 1, 0⟩ ∧
    classifySeat none (some "seat sold taken") = ⟨0, 0, 1⟩ :=
  ⟨rfl, rfl, rfl, rfl, rfl, rfl, rfl⟩

/-! ### Claim C5 -/

/-- C5, counterexample: an element with no fill attribute and class name
`seat` (matching no class rule) contributes to no category, yet
`total_seats_found` still becomes 1 — the element is counted in the
total. -/
theorem unmatched_element_increments_total :
    classifySeat none (some "seat") = zeroCounts ∧
    selectorLoop zeroCounts 0 [Except.ok [⟨none, some "seat"⟩]] = (zeroCounts, 1) ∧
    (selectorLoop zeroCounts 0 [Except.ok [⟨none, some "seat"⟩]]).2 ≠ 0 :=
  ⟨rfl, rfl, by decide⟩

/-- C5, amended: an element whose fill attribute is absent or empty and
whose class name matches no class rule contributes to no category count,
but `total_seats_found` is incremented for it all the same (the line 139
increment is unconditional), so it does contribute to the total count of
seats found. -/
theorem unmatched_element_not_categorized_but_counted
    (fill : Option String) (cn : Option String)
    (hf : fillBlank fill = true) (hc : classMatched (cn.getD "") = false) :
    classifySeat fill cn = zeroCounts ∧
    selectorLoop zeroCounts 0 [Except.ok [⟨fill, cn⟩]] = (zeroCounts, 1) := by
  have hcl : classifySeat fill cn = zeroCounts := by
    have h2 : classDelta (cn.getD "") = zeroCounts := classDelta_unmatched _ hc
    cases fill with
    | none => simp [classifySeat, fillDelta, h2, addCounts, zeroCounts]
    | some s =>
      simp only [fillBlank] at hf
      simp [classifySeat, fillDelta, hf, h2, addCounts, zeroCounts]
  refine ⟨hcl, ?_⟩
  simp [selectorLoop, hcl, addCounts, zeroCounts]

/-- C5, witness: the amended theorem applied to an element with empty
fill string and no class attribute. -/
theorem unmatched_element_not_categorized_but_counted_witness :
    fillBlank (some "") = true ∧ classMatched "" = false ∧
    classifySeat (some "") none = zeroCounts ∧
    selectorLoop zeroCounts 0 [Except.ok [⟨some "", none⟩]] = (zeroCounts, 1) :=
  ⟨rfl, by decide,
    (unmatched_element_not_categorized_but_counted (some "") none rfl (by decide)).1,
    (unmatched_element_not_categorized_but_counted (some "") none rfl (by decide)).2⟩

/-! ### Claim C6 -/

/-- C6: for every pair of snapshots with arbitrary non-negative category
counts (the previous one possibly carrying extra keys such as the
timestamps), `compare_and_notify` succeeds and emits exactly one message
for each category whose counts differ, none for a category with equal
counts, and the single no-changes message exactly when all three deltas
are zero. -/
theorem compare_and_notify_message_per_changed_category
    (cy cr cg py pr pg : Nat) (extra : JObj) :
    ∃ msgs,
      compare_and_notify (countsToObj ⟨cy, cr, cg⟩) (countsToObj ⟨py, pr, pg⟩ ++ extra)
        = .ok msgs ∧
      countMsgsFor msgs "Yellow" = (if cy = py then 0 else 1) ∧
      countMsgsFor msgs "Red" = (if cr = pr then 0 else 1) ∧
      countMsgsFor msgs "Sold (grey)" = (if cg = pg then 0 else 1) ∧
      (msgs = [Msg.noChanges] ↔ (cy = py ∧ cr = pr ∧ cg = pg)) := by
  have hcc := compareColors_eval (countsToObj ⟨cy, cr, cg⟩) (countsToObj ⟨py, pr, pg⟩ ++ extra)
    cy cr cg py pr pg rfl rfl rfl rfl rfl rfl
  by_cases hall : cy = py ∧ cr = pr ∧ cg = pg
  · obtain ⟨e1, e2, e3⟩ := hall
    subst e1; subst e2; subst e3
    refine ⟨[Msg.noChanges], ?_, ?_, ?_, ?_, ?_⟩
    · unfold compare_and_notify
      rw [hcc]
      simp [deltaMsg, Except.map]
    · simp [countMsgsFor, isMsgFor]
    · simp [countMsgsFor, isMsgFor]
    · simp [countMsgsFor, isMsgFor]
    · simp
  · have hLne : deltaMsg "Yellow" ((cy : Int) - py) ++ deltaMsg "Red" ((cr : Int) - pr) ++
        deltaMsg "Sold (grey)" ((cg : Int) - pg) ≠ [] := by
      intro h0
      rcases List.append_eq_nil.mp h0 with ⟨hab, hc⟩
      rcases List.append_eq_nil.mp hab with ⟨ha, hb⟩
      rw [deltaMsg_eq_nil_iff] at ha hb hc
      exact hall ⟨by omega, by omega, by omega⟩
    have hLE : (deltaMsg "Yellow" ((cy : Int) - py) ++ deltaMsg "Red" ((cr : Int) - pr) ++
        deltaMsg "Sold (grey)" ((cg : Int) - pg)).isEmpty = false := by
      simp only [List.isEmpty_eq_false]
      exact hLne
    refine ⟨deltaMsg "Yellow" ((cy : Int) - py) ++ deltaMsg "Red" ((cr : Int) - pr) ++
        deltaMsg "Sold (grey)" ((cg : Int) - pg), ?_, ?_, ?_, ?_, ?_⟩
    · unfold compare_and_notify
      rw [hcc]
      simp only [Except.map]
      rw [hLE]
      rfl
    · rw [countMsgsFor_append, countMsgsFor_append,
        countMsgsFor_deltaMsg_same,
        countMsgsFor_deltaMsg_other "Red" "Yellow" _ (by decide),
        countMsgsFor_deltaMsg_other "Sold (grey)" "Yellow" _ (by decide),
        diff_zero_iff]
      simp
    · rw [countMsgsFor_append, countMsgsFor_append,
        countMsgsFor_deltaMsg_other "Yellow" "Red" _ (by decide),
        countMsgsFor_deltaMsg_same,
        countMsgsFor_deltaMsg_other "Sold (grey)" "Red" _ (by decide),
        diff_zero_iff]
      simp
    · rw [countMsgsFor_append, countMsgsFor_append,
        countMsgsFor_deltaMsg_other "Yellow" "Sold (grey)" _ (by decide),
        countMsgsFor_deltaMsg_other "Red" "Sold (grey)" _ (by decide),
        countMsgsFor_deltaMsg_same,
        diff_zero_iff]
      simp
    · constructor
      · intro hEq
        exfalso
        have hmem : Msg.noChanges ∈ deltaMsg "Yellow" ((cy : Int) - py) ++
            deltaMsg "Red" ((cr : Int) - pr) ++ deltaMsg "Sold (grey)" ((cg : Int) - pg) := by
          rw [hEq]
          simp
        rcases List.mem_append.mp hmem with h | h
        · rcases List.mem_append.mp h with h2 | h2
          · exact noChanges_not_mem_deltaMsg _ _ h2
          · exact noChanges_not_mem_deltaMsg _ _ h2
        · exact noChanges_not_mem_deltaMsg _ _ h
      · intro h
        exact absurd h hall

/-! ### Claim C7 -/

/-- C7, counterexample: a selector error does not force the zero-count
result — with the first selector raising and the second returning one
gold element, `fetch_seat_data` returns one yellow seat, not the
zero-count dict, even though an exception was raised during the fetch. -/
theorem selector_error_not_zeroed :
    fetch_seat_data ⟨false, [Except.error (), Except.ok [⟨some "gold", none⟩]]⟩ = ⟨1, 0, 0⟩ ∧
    (⟨1, 0, 0⟩ : SeatCounts) ≠ zeroCounts :=
  ⟨rfl, by decide⟩

/-- C7, amended: every exception reaching the top-level handler of
`fetch_seat_data` (browser launch, navigation timeout, engine failure —
anything outside the per-selector loop) is caught and converted to the
zero-count result, whatever the selectors would have returned; the
function never propagates an exception (it is total into `SeatCounts`).
Selector errors, by contrast, are caught inside the loop and only skip
that selector. -/
theorem fetch_env_failure_returns_zero (rs : List SelectorResult) :
    fetch_seat_data ⟨true, rs⟩ = zeroCounts := rfl

/-! ### Claim C8 -/

/-- C8: when the snapshot file is absent or unreadable,
`load_previous_data` returns the default object, whose three category
counts are all zero; being a total function of the file state, it never
raises. -/
theorem load_missing_or_unreadable_returns_defaults :
    load_previous_data .absent = defaultData ∧
    load_previous_data .unreadable = defaultData ∧
    pyGet defaultData "yellow" = some (.num 0) ∧
    pyGet defaultData "red" = some (.num 0) ∧
    pyGet defaultData "grey" = some (.num 0) :=
  ⟨rfl, rfl, rfl, rfl, rfl⟩

/-! ### Claim C9 -/

/-- C9: saving any seat-count snapshot (with a successful write) and
loading it back yields an object whose three category counts equal the
saved ones; the added timestamp fields do not disturb them. -/
theorem save_load_round_trip_counts (c : SeatCounts) (ts lc : String) (old : FileState) :
    pyGet (load_previous_data (save_current_data (countsToObj c) ts lc true old)) "yellow"
      = some (.num c.yellow) ∧
    pyGet (load_previous_data (save_current_data (countsToObj c) ts lc true old)) "red"
      = some (.num c.red) ∧
    pyGet (load_previous_data (save_current_data (countsToObj c) ts lc true old)) "grey"
      = some (.num c.grey) :=
  ⟨rfl, rfl, rfl⟩

/-! ### Claim C10 -/

/-- C10: `load_previous_data` returns a parsed file verbatim, with no
shape validation: in particular a stored object lacking the `yellow` key
is returned still lacking it, and is not replaced by the zero-valued
default object. -/
theorem load_returns_parsed_verbatim (j : JObj) :
    load_previous_data (.readable j) = j ∧
    pyGet (load_previous_data (.readable [("red", JVal.num 5)])) "yellow" = none ∧
    load_previous_data (.readable [("red", JVal.num 5)]) ≠ defaultData :=
  ⟨rfl, rfl, by decide⟩

end SeatMonitor
